import Mathlib

/-!
Verification development for the lt-public-transport-sdk repository.

The TypeScript sources are shallowly embedded: every JavaScript number that
the feeds carry is a plain decimal numeral, so numbers are modelled as `ℚ`
(with `Option ℚ` where a value may be the non-finite result `NaN` of a failed
coercion); `Date` values are modelled as integer epoch milliseconds under a
fixed-offset local clock; thrown errors become `Except`/structured error
values; JavaScript strings are Lean strings, and the split/trim/case
primitives the code uses are embedded as executable functions over the
underlying character lists.
-/

-- ===========================================================================
-- JavaScript string primitives (models of the built-ins used by the code)
-- ===========================================================================

/-- Whitespace recognised by the model of JS `String.prototype.trim`
(the ASCII whitespace actually occurring in the feeds). -/
def isJsWhitespace (c : Char) : Bool :=
  c = ' ' || c = '\t' || c = '\n' || c = '\r'

/-- Model of JS `s.trim()` over the character list. -/
def trimChars (l : List Char) : List Char :=
  ((l.dropWhile isJsWhitespace).reverse.dropWhile isJsWhitespace).reverse

/-- Model of JS `s.trim()`. -/
def jsTrim (s : String) : String :=
  ⟨trimChars s.data⟩

/-- Model of JS `s.split(c)` for a one-character separator
(`text.split('\n')`, `line.split(',')` in the parsers). -/
def splitChar (c : Char) : List Char → List (List Char)
  | [] => [[]]
  | x :: xs =>
    let r := splitChar c xs
    if x = c then [] :: r
    else
      match r with
      | [] => [[x]]
      | h :: t => (x :: h) :: t

/-- Model of JS `s.split(sep)` for single-character separators, on strings. -/
def jsSplitChar (c : Char) (s : String) : List String :=
  (splitChar c s.data).map fun l => ⟨l⟩

/-- Model of JS `s.toUpperCase()` restricted to ASCII letters
(route short names are ASCII). -/
def jsToUpper (s : String) : String :=
  ⟨s.data.map Char.toUpper⟩

/-- Does `sep` occur as a prefix of `l`? -/
def isPrefixList : List Char → List Char → Bool
  | [], _ => true
  | _ :: _, [] => false
  | a :: as, b :: bs => a = b && isPrefixList as bs

/-- Model of JS `s.includes(sub)` for nonempty `sub`, over character lists. -/
def containsSubList (sep : List Char) : List Char → Bool
  | [] => sep.isEmpty
  | x :: xs => isPrefixList sep (x :: xs) || containsSubList sep xs

/-- Model of JS `s.includes(sub)` for nonempty `sub`. -/
def jsIncludes (s sub : String) : Bool :=
  containsSubList sub.data s.data

/-- Fuel-driven worker for multi-character split: `acc` is the current
segment reversed, `rest` the unread input. The fuel starts at
`rest.length + 1`, enough for every step to consume input or finish. -/
def splitOnSubAux (sep : List Char) : Nat → List Char → List Char → List (List Char)
  | 0, acc, rest => [acc.reverse ++ rest]
  | _ + 1, acc, [] => [acc.reverse]
  | n + 1, acc, x :: xs =>
    if isPrefixList sep (x :: xs) then
      acc.reverse :: splitOnSubAux sep n [] ((x :: xs).drop sep.length)
    else
      splitOnSubAux sep n (x :: acc) xs

/-- Model of JS `s.split(sep)` for a nonempty multi-character separator
(the destination-separator split in the enrichment matcher). -/
def jsSplitOn (s sep : String) : List String :=
  (splitOnSubAux sep.data (s.data.length + 1) [] s.data).map fun l => ⟨l⟩

-- ===========================================================================
-- JavaScript number primitives
-- ===========================================================================

/-- Value of a nonempty all-digit character list, `none` otherwise. -/
def digitsVal : List Char → Option Nat
  | [] => none
  | l =>
    l.foldl (fun acc c =>
      acc.bind fun n => if c.isDigit then some (10 * n + (c.toNat - 48)) else none)
      (some 0)

/-- Model of the JS `Number(string)` coercion on the plain decimal numerals
carried by these feeds: the trimmed empty string is `0`, an optionally signed
decimal numeral (integer part, or integer and fractional part around one
decimal point, at least one of them nonempty) is its value, and anything else
is `NaN`, modelled as `none`. -/
def jsNumber? (s : String) : Option ℚ :=
  let t := trimChars s.data
  if t.isEmpty then some 0
  else
    let (sign, rest) : ℚ × List Char :=
      match t with
      | '-' :: r => (-1, r)
      | '+' :: r => (1, r)
      | r => (1, r)
    match splitChar '.' rest with
    | [ip] => (digitsVal ip).map fun n => sign * (n : ℚ)
    | [ip, fp] =>
      if ip.isEmpty && fp.isEmpty then none
      else if (ip.all Char.isDigit) && (fp.all Char.isDigit) then
        some (sign * (((digitsVal ip).getD 0 : ℚ) +
          ((digitsVal fp).getD 0 : ℚ) / (10 : ℚ) ^ fp.length))
      else none
    | _ => none

/-- Model of JS `Number(x)` where `x` may be `undefined` (an out-of-range
column access): `Number(undefined)` is `NaN`. -/
def jsNumberOfField : Option String → Option ℚ
  | none => none
  | some s => jsNumber? s

/-- Truncation toward zero, the rounding JS `%` uses. -/
def ratTrunc (q : ℚ) : ℤ :=
  if 0 ≤ q then ⌊q⌋ else -⌊-q⌋

/-- Model of the JS remainder operator `a % b` on finite operands
(truncated division remainder). -/
def jsMod (a b : ℚ) : ℚ :=
  a - b * (ratTrunc (a / b) : ℚ)

-- ===========================================================================
-- src/utils/coordinates.ts
-- ===========================================================================

/-- `normalizeCoordinate` from src/utils/coordinates.ts: divide the raw
integer wire coordinate by 1,000,000. -/
def normalizeCoordinate (raw : ℚ) : ℚ :=
  raw / 1000000

/-- `isValidLithuaniaCoord` from src/utils/coordinates.ts, against the
`LITHUANIA_BOUNDS` box (latitude 53.89–56.45, longitude 20.93–26.83). -/
def isValidLithuaniaCoord (lat lon : ℚ) : Bool :=
  5389/100 ≤ lat && lat ≤ 5645/100 && 2093/100 ≤ lon && lon ≤ 2683/100

/-- `normalizeBearing` from src/utils/coordinates.ts. A non-finite argument
(`NaN`/`±Infinity`, modelled as `none`) yields 0; a finite argument is wrapped
by `((bearing % 360) + 360) % 360` with the JS `%`. -/
def normalizeBearing : Option ℚ → ℚ
  | none => 0
  | some bearing => jsMod (jsMod bearing 360 + 360) 360

/-- `normalizeSpeed` from src/utils/coordinates.ts: non-finite or negative
speeds become 0. -/
def normalizeSpeed : Option ℚ → ℚ
  | none => 0
  | some speed => if speed < 0 then 0 else speed

-- ===========================================================================
-- src/utils/time.ts (src/unnamed/part_002)
-- ===========================================================================

/-- Milliseconds in a day. -/
def MS_PER_DAY : ℤ := 86400000

/-- Model of `new Date(now).setHours(0,0,0,0)`: the local midnight of the
current day, under a fixed-offset clock measured in epoch milliseconds. -/
def localMidnight (now : ℤ) : ℤ :=
  now - now % MS_PER_DAY

/-- `secondsFromMidnightToDate` from src/utils/time.ts. The implementation
reads the current time (`new Date()`), modelled here as the explicit
`now` parameter; `setDate(getDate() - 1)` is one day earlier under the
fixed-offset clock. The seconds argument is a JS number, hence `ℚ`. -/
def secondsFromMidnightToDate (seconds : ℚ) (now : ℤ) : ℚ :=
  let baseMidnight := localMidnight now
  let base : ℤ := if seconds ≥ 86400 then baseMidnight - MS_PER_DAY else baseMidnight
  (base : ℚ) + seconds * 1000

/-- `isDataStale` from src/utils/time.ts: stale iff the (non-negative) age
exceeds the threshold. -/
def isDataStale (measuredAt : ℚ) (thresholdMs : ℤ) (now : ℤ) : Bool :=
  let age : ℚ := (now : ℚ) - measuredAt
  if age < 0 then false else decide (age > (thresholdMs : ℚ))

-- ===========================================================================
-- src/types.ts
-- ===========================================================================

/-- `VehicleType` from src/types.ts. -/
inductive VehicleType
  | bus
  | trolleybus
  | ferry
  | unknown
deriving DecidableEq, Repr

/-- `LT_TRANSPORT_TYPE_MAP` from src/types.ts (insertion order kept). -/
def LT_TRANSPORT_TYPE_MAP : List (String × VehicleType) :=
  [("Autobusai", .bus), ("Troleibusai", .trolleybus), ("Laivai", .ferry),
   ("Keltai", .ferry), ("Bus", .bus), ("Trolleybus", .trolleybus),
   ("Ferry", .ferry)]

/-- `Vehicle` from src/types.ts. Numbers are `ℚ`, nullable fields are
`Option`, and `measuredAt` is an epoch-millisecond timestamp. -/
structure Vehicle where
  id : String
  vehicleNumber : String
  route : String
  type : VehicleType
  latitude : ℚ
  longitude : ℚ
  bearing : ℚ
  speed : ℚ
  destination : Option String
  delaySeconds : Option ℚ
  tripId : Option String
  gtfsTripId : Option String
  nextStopId : Option String
  arrivalTimeSeconds : Option ℚ
  isStale : Bool
  measuredAt : ℚ
deriving DecidableEq, Repr

/-- `Route` from src/types.ts. -/
structure Route where
  id : String
  shortName : String
  longName : String
  type : VehicleType
  color : String
  textColor : String
deriving DecidableEq, Repr

/-- `Stop` from src/types.ts (the fields the read path returns). -/
structure Stop where
  id : String
  code : Option String
  name : String
  description : Option String
  latitude : ℚ
  longitude : ℚ
deriving DecidableEq, Repr

-- ===========================================================================
-- src/utils/encoding.ts (src/unnamed/part_001)
-- ===========================================================================

/-- `MOJIBAKE_REPAIRS` from src/utils/encoding.ts, in insertion order. -/
def MOJIBAKE_REPAIRS : List (String × String) :=
  [("Ä…", "ą"), ("Ä‡", "ć"), ("Ä—", "ė"), ("Ä™", "ę"), ("Ä¯", "į"),
   ("Å¡", "š"), ("Å³", "ų"), ("Å«", "ū"), ("Å¾", "ž"),
   ("Ä„", "Ą"), ("Ä†", "Ć"), ("Ä–", "Ė"), ("Ä˜", "Ę"), ("Ä®", "Į"),
   ("Å ", "Š"), ("Å²", "Ų"), ("Åª", "Ū"), ("Å½", "Ž"),
   ("Ã¨", "č"), ("Ã ", "ę"), ("Å„", "ń"), ("Ä", "č")]

/-- `repairMojibake` from src/utils/encoding.ts: apply each substitution of
the table globally (`split(corrupted).join(correct)`), in table order. -/
def repairMojibake (text : String) : String :=
  MOJIBAKE_REPAIRS.foldl
    (fun result p => String.intercalate p.2 (jsSplitOn result p.1)) text

/-- `cleanTextField` from src/utils/encoding.ts: trim, repair mojibake,
then drop ASCII control characters (0–31 and 127). -/
def cleanTextField (text : String) : String :=
  if text = "" then ""
  else
    let cleaned := repairMojibake (jsTrim text)
    ⟨cleaned.data.filter fun c => !(c.toNat ≤ 31 || c.toNat = 127)⟩

-- ===========================================================================
-- gpsFullRowSchema from src/schemas.ts (Zod v4 semantics: a coerced number
-- must be finite, so a field whose text does not read as a decimal numeral
-- fails validation)
-- ===========================================================================

/-- `z.string()` on a required key: missing key fails. -/
def zodString (o : Option String) : Option String := o

/-- `z.string().min(1)` on a required key. -/
def zodNonemptyString (o : Option String) : Option String :=
  o.bind fun s => if s = "" then none else some s

/-- `z.coerce.number()` on a required key: `Number(value)` must be finite. -/
def zodCoerceNumber (o : Option String) : Option ℚ :=
  o.bind jsNumber?

/-- `z.coerce.number().int()` on a required key. -/
def zodCoerceInt (o : Option String) : Option ℚ :=
  (zodCoerceNumber o).bind fun q => if q.den = 1 then some q else none

/-- `z.coerce.number().nonnegative().default(0)` (the `Greitis` column). -/
def zodCoerceNonnegDefault0 (o : Option String) : Option ℚ :=
  match o with
  | none => some 0
  | some s => (jsNumber? s).bind fun q => if 0 ≤ q then some q else none

/-- `z.coerce.number().min(0).max(360).default(0)` (the `Azimutas` column). -/
def zodCoerceBearingDefault0 (o : Option String) : Option ℚ :=
  match o with
  | none => some 0
  | some s => (jsNumber? s).bind fun q =>
      if 0 ≤ q ∧ q ≤ 360 then some q else none

/-- `z.string().optional()`. -/
def zodOptionalString (o : Option String) : Option (Option String) :=
  some o

/-- `z.coerce.number().optional()`. -/
def zodOptionalCoerceNumber (o : Option String) : Option (Option ℚ) :=
  match o with
  | none => some none
  | some s => (jsNumber? s).map some

/-- A validated `GpsFullRow` (src/schemas.ts `gpsFullRowSchema`). -/
structure GpsFullRow where
  Transportas : String
  Marsrutas : String
  MasinosNumeris : String
  Ilguma : ℚ
  Platuma : ℚ
  Greitis : ℚ
  Azimutas : ℚ
  ReisoID : Option String
  Grafikas : Option String
  ReisoPradziaMinutemis : Option ℚ
  NuokrypisSekundemis : Option ℚ
  MatavimoLaikas : Option ℚ
  SekanciosStotelesNum : Option ℚ
  AtvykimoLaikasSekundemis : Option ℚ
  MasinosTipas : Option String
  KryptiesTipas : Option String
  KryptiesPavadinimas : Option String
  ReisoIdGTFS : Option String
  IntervalasPries : Option ℚ
  IntervalasPaskui : Option ℚ
deriving DecidableEq, Repr

/-- `gpsFullRowSchema.safeParse` on a row object, given as the
key-to-value lookup built by `buildRowObject`; `.loose()` ignores
unknown keys, which the lookup model handles implicitly. -/
def validateGpsFullRow (get : String → Option String) : Option GpsFullRow := do
  let transportas ← zodNonemptyString (get "Transportas")
  let marsrutas ← zodString (get "Marsrutas")
  let masinosNumeris ← zodNonemptyString (get "MasinosNumeris")
  let ilguma ← zodCoerceInt (get "Ilguma")
  let platuma ← zodCoerceInt (get "Platuma")
  let greitis ← zodCoerceNonnegDefault0 (get "Greitis")
  let azimutas ← zodCoerceBearingDefault0 (get "Azimutas")
  let reisoID ← zodOptionalString (get "ReisoID")
  let grafikas ← zodOptionalString (get "Grafikas")
  let reisoPradziaMinutemis ← zodOptionalCoerceNumber (get "ReisoPradziaMinutemis")
  let nuokrypisSekundemis ← zodOptionalCoerceNumber (get "NuokrypisSekundemis")
  let matavimoLaikas ← zodOptionalCoerceNumber (get "MatavimoLaikas")
  let sekanciosStotelesNum ← zodOptionalCoerceNumber (get "SekanciosStotelesNum")
  let atvykimoLaikasSekundemis ← zodOptionalCoerceNumber (get "AtvykimoLaikasSekundemis")
  let masinosTipas ← zodOptionalString (get "MasinosTipas")
  let kryptiesTipas ← zodOptionalString (get "KryptiesTipas")
  let kryptiesPavadinimas ← zodOptionalString (get "KryptiesPavadinimas")
  let reisoIdGTFS ← zodOptionalString (get "ReisoIdGTFS")
  let intervalasPries ← zodOptionalCoerceNumber (get "IntervalasPries")
  let intervalasPaskui ← zodOptionalCoerceNumber (get "IntervalasPaskui")
  pure {
    Transportas := transportas, Marsrutas := marsrutas,
    MasinosNumeris := masinosNumeris, Ilguma := ilguma, Platuma := platuma,
    Greitis := greitis, Azimutas := azimutas, ReisoID := reisoID,
    Grafikas := grafikas, ReisoPradziaMinutemis := reisoPradziaMinutemis,
    NuokrypisSekundemis := nuokrypisSekundemis,
    MatavimoLaikas := matavimoLaikas,
    SekanciosStotelesNum := sekanciosStotelesNum,
    AtvykimoLaikasSekundemis := atvykimoLaikasSekundemis,
    MasinosTipas := masinosTipas, KryptiesTipas := kryptiesTipas,
    KryptiesPavadinimas := kryptiesPavadinimas, ReisoIdGTFS := reisoIdGTFS,
    IntervalasPries := intervalasPries, IntervalasPaskui := intervalasPaskui }

-- ===========================================================================
-- src/parsers/gps-full.ts (header-mapped decoder)
-- ===========================================================================

/-- `parseVehicleType` from src/parsers/gps-full.ts. -/
def parseVehicleType (transportName : String) : VehicleType :=
  (LT_TRANSPORT_TYPE_MAP.lookup transportName).getD .unknown

/-- Model of JS `String(n)` for the integer-valued numbers these columns
carry. -/
def jsNumToString (q : ℚ) : String :=
  if q.den = 1 then toString q.num else toString q

/-- Index assigned to `name` by `buildColumnMap`: headers are trimmed,
empty names are not inserted, and on duplicates the last index wins
(`Map.set` overwrites). -/
def headerIndex (headers : List String) (name : String) : Option Nat :=
  if name = "" then none
  else
    (headers.enum.filterMap fun p =>
      if jsTrim p.2 = name then some p.1 else none).getLast?

/-- `columnMap.has` from src/parsers/gps-full.ts. -/
def columnHas (headers : List String) (name : String) : Bool :=
  (headerIndex headers name).isSome

/-- `buildRowObject` from src/parsers/gps-full.ts, as a key lookup: a key is
present exactly when it is a nonempty trimmed header name, and its value is
`cols[idx]?.trim() ?? ''` at that header index. -/
def rowField (headers cols : List String) (name : String) : Option String :=
  (headerIndex headers name).map fun idx => ((cols.get? idx).map jsTrim).getD ""

/-- `calculateMeasuredAtFromRow` from src/parsers/gps-full.ts: prefer a
positive `MatavimoLaikas`, else the caller-supplied fallback time. -/
def calculateMeasuredAtFromRow (row : GpsFullRow) (fallbackTime : ℤ) (now : ℤ) : ℚ :=
  match row.MatavimoLaikas with
  | some t => if t > 0 then secondsFromMidnightToDate t now else (fallbackTime : ℚ)
  | none => (fallbackTime : ℚ)

/-- `parseVehicleLine` from src/parsers/gps-full.ts. -/
def parseVehicleLine (cols headers : List String) (city : String)
    (staleThresholdMs : ℤ) (serverTime now : ℤ) : Option Vehicle :=
  match validateGpsFullRow (rowField headers cols) with
  | none => none
  | some row =>
    if row.MasinosNumeris = "" then none
    else
      let longitude := normalizeCoordinate row.Ilguma
      let latitude := normalizeCoordinate row.Platuma
      let speed := normalizeSpeed (some row.Greitis)
      let bearing := normalizeBearing (some row.Azimutas)
      let delaySeconds := row.NuokrypisSekundemis
      let tripId := match row.ReisoID with
        | some x => some x
        | none => row.Grafikas
      let destination := match row.KryptiesPavadinimas with
        | some s => if s ≠ "" then some (cleanTextField s) else none
        | none => none
      let gtfsTripId := row.ReisoIdGTFS
      let nextStopId := row.SekanciosStotelesNum.map jsNumToString
      let arrivalTimeSeconds := row.AtvykimoLaikasSekundemis
      let measuredAt := calculateMeasuredAtFromRow row serverTime now
      let isStale := isDataStale measuredAt staleThresholdMs now
      let vehicleNumber := row.MasinosNumeris
      let route := row.Marsrutas
      let id := city ++ "-" ++ vehicleNumber ++ "-" ++ route
      some {
        id, vehicleNumber, route, type := parseVehicleType row.Transportas,
        latitude, longitude, bearing, speed, destination, delaySeconds,
        tripId, gtfsTripId, nextStopId, arrivalTimeSeconds, isStale,
        measuredAt }

/-- Structured model of the `Error` thrown by `parseGpsFullStream` when a
mandatory header column is absent (its message names the column and city). -/
inductive GpsFullError
  | requiredColumnMissing (column city : String)
deriving DecidableEq, Repr

/-- The mandatory columns validated by `parseGpsFullStream`, in the order
they are checked. -/
def REQUIRED_FULL_COLUMNS : List String :=
  ["Transportas", "Marsrutas", "MasinosNumeris", "Ilguma", "Platuma"]

/-- The BOM strip at the start of the header row
(`charCodeAt(0) === 0xFEFF` then `slice(1)`). -/
def stripBom (s : String) : String :=
  match s.data with
  | c :: rest => if c.toNat = 0xFEFF then ⟨rest⟩ else s
  | [] => s

/-- The data-row loop of `parseGpsFullStream`: skipped rows (blank, failing
row validation, or removed by a filter) are dropped; survivors keep their
input order. -/
def parseFullRows (rows headers : List String) (city : String)
    (staleThresholdMs : ℤ) (filterStale filterInvalidCoords : Bool)
    (serverTime now : ℤ) : List Vehicle :=
  rows.filterMap fun line =>
    if jsTrim line = "" then none
    else
      match parseVehicleLine (jsSplitChar ',' line) headers city
        staleThresholdMs serverTime now with
      | none => none
      | some v =>
        if filterInvalidCoords && !isValidLithuaniaCoord v.latitude v.longitude then
          none
        else if filterStale && v.isStale then none
        else some v

/-- `parseGpsFullStream` after the blank-line filter: the nonblank lines of
the input text. -/
def parseGpsFullLines (lines : List String) (city : String)
    (staleThresholdMs : ℤ) (filterStale filterInvalidCoords : Bool)
    (serverTime now : ℤ) : Except GpsFullError (List Vehicle) :=
  if lines.length < 2 then .ok []
  else
    match lines with
    | [] => .ok []
    | firstLine :: rest =>
      let cleanHeader := stripBom firstLine
      let headers := jsSplitChar ',' cleanHeader
      match REQUIRED_FULL_COLUMNS.find? fun col => !columnHas headers col with
      | some col => .error (.requiredColumnMissing col city)
      | none =>
        .ok (parseFullRows rest headers city staleThresholdMs filterStale
          filterInvalidCoords serverTime now)

/-- `parseGpsFullStream` from src/parsers/gps-full.ts. The thrown
configuration error is the `.error` case; vehicles are the `.ok` case. -/
def parseGpsFullStream (text : String) (city : String)
    (staleThresholdMs : ℤ) (filterStale filterInvalidCoords : Bool)
    (serverTime now : ℤ) : Except GpsFullError (List Vehicle) :=
  parseGpsFullLines ((jsSplitChar '\n' text).filter fun line => jsTrim line != "")
    city staleThresholdMs filterStale filterInvalidCoords serverTime now

-- ===========================================================================
-- src/parsers/gps-lite.ts (src/unnamed/part_010, offset-mapped decoder)
-- ===========================================================================

/-- `LiteFormatDescriptor` from src/config.ts / src/schemas.ts. -/
structure LiteFormatDescriptor where
  minColumns : Nat
  vehicleIdIndex : Nat
  routeIndex : Nat
  coordIndices : Nat × Nat
  speedIndex : Nat
  bearingIndex : Nat
  typeIndex : Option Nat := none
  timestampIndex : Option Nat := none
deriving DecidableEq, Repr

/-- `parseLiteLine` from src/parsers/gps-lite.ts. -/
def parseLiteLine (cols : List String) (cityId : String)
    (format : LiteFormatDescriptor) (now : ℤ) : Option Vehicle :=
  if cols.length < format.minColumns then none
  else
    match (cols.get? format.vehicleIdIndex).map jsTrim with
    | none => none
    | some vehicleNumber =>
      if vehicleNumber = "" then none
      else
        match jsNumberOfField (cols.get? format.coordIndices.1),
              jsNumberOfField (cols.get? format.coordIndices.2) with
        | some latRaw, some lonRaw =>
          let route := ((cols.get? format.routeIndex).map jsTrim).getD ""
          let speedRaw := jsNumberOfField (cols.get? format.speedIndex)
          let bearingRaw := jsNumberOfField (cols.get? format.bearingIndex)
          let latitude := normalizeCoordinate latRaw
          let longitude := normalizeCoordinate lonRaw
          let speed := normalizeSpeed (some (speedRaw.getD 0))
          let bearing := normalizeBearing (some (bearingRaw.getD 0))
          some {
            id := cityId ++ "-" ++ vehicleNumber, vehicleNumber, route,
            type := .bus, latitude, longitude, bearing, speed,
            destination := none, delaySeconds := none, tripId := none,
            gtfsTripId := none, nextStopId := none,
            arrivalTimeSeconds := none, isStale := false,
            measuredAt := (now : ℚ) }
        | _, _ => none

/-- The per-line loop of `parseGpsLiteStream` over the nonblank lines. -/
def parseLiteLines (lines : List String) (cityId : String)
    (format : LiteFormatDescriptor) (filterInvalidCoords : Bool)
    (now : ℤ) : List Vehicle :=
  lines.filterMap fun line =>
    match parseLiteLine (jsSplitChar ',' line) cityId format now with
    | none => none
    | some v =>
      if filterInvalidCoords && !isValidLithuaniaCoord v.latitude v.longitude then
        none
      else some v

/-- `parseGpsLiteStream` from src/parsers/gps-lite.ts: split into lines,
drop blank lines, parse each surviving line, soft-skipping failures. -/
def parseGpsLiteStream (text : String) (cityId : String)
    (format : LiteFormatDescriptor) (filterInvalidCoords : Bool)
    (now : ℤ) : List Vehicle :=
  let lines := (jsSplitChar '\n' text).filter fun line => jsTrim line != ""
  if lines.isEmpty then []
  else parseLiteLines lines cityId format filterInvalidCoords now

-- ===========================================================================
-- src/enrichment/route-matcher.ts
-- ===========================================================================

/-- `EnrichmentResult` from src/enrichment/route-matcher.ts. -/
structure EnrichmentResult where
  destination : Option String
  routeLongName : Option String
  matched : Bool
deriving DecidableEq, Repr

/-- `RouteCache` from src/enrichment/route-matcher.ts: both JS `Map`s are
modelled as association lists with unique keys maintained by `mapSet`. -/
structure RouteCache where
  routes : List (String × Route)
  normalizedRoutes : List (String × Route)
deriving DecidableEq, Repr

/-- Model of JS `Map.set`: replace the value at an existing key, else
append a new entry. -/
def mapSet (m : List (String × Route)) (k : String) (v : Route) :
    List (String × Route) :=
  if (m.lookup k).isSome then
    m.map fun p => if p.1 = k then (k, v) else p
  else m ++ [(k, v)]

/-- `buildRouteCache` from src/enrichment/route-matcher.ts: pre-build the
upper-cased lookup map in entry order. -/
def buildRouteCache (routes : List (String × Route)) : RouteCache :=
  { routes,
    normalizedRoutes :=
      routes.foldl (fun acc p => mapSet acc (jsToUpper p.1) p.2) [] }

/-- `SEPARATORS` checked by `extractEnrichment`, in order: spaced hyphen,
en-dash, em-dash, slash. -/
def SEPARATORS : List String := [" - ", " – ", " — ", " / "]

/-- `extractEnrichment` from src/enrichment/route-matcher.ts. -/
def extractEnrichment (route : Route) : EnrichmentResult :=
  let destination : Option String :=
    if route.longName ≠ "" then
      match SEPARATORS.find? (fun sep => jsIncludes route.longName sep) with
      | some sep =>
        let parts := jsSplitOn route.longName sep
        match parts.getLast? with
        | some lastPart => some (jsTrim lastPart)
        | none => some route.longName
      | none => some route.longName
    else none
  { destination,
    routeLongName := if route.longName ≠ "" then some route.longName else none,
    matched := true }

/-- `matchRoute` from src/enrichment/route-matcher.ts. -/
def matchRoute (gpsRoute : String) (cache : RouteCache) : EnrichmentResult :=
  if gpsRoute = "" ∨ jsTrim gpsRoute = "" then
    { destination := none, routeLongName := none, matched := false }
  else
    let normalized := jsTrim gpsRoute
    match cache.routes.lookup normalized with
    | some exactRoute => extractEnrichment exactRoute
    | none =>
      match cache.normalizedRoutes.lookup (jsToUpper normalized) with
      | some upperRoute => extractEnrichment upperRoute
      | none => { destination := none, routeLongName := none, matched := false }

/-- `enrichVehicle` from src/enrichment/route-matcher.ts. -/
def enrichVehicle (vehicle : Vehicle) (cache : RouteCache) : Vehicle :=
  if vehicle.destination ≠ none ∧ vehicle.destination ≠ some "" then vehicle
  else
    let enrichment := matchRoute vehicle.route cache
    if !enrichment.matched then vehicle
    else { vehicle with destination := enrichment.destination }

/-- `enrichVehicles` from src/enrichment/route-matcher.ts. -/
def enrichVehicles (vehicles : List Vehicle) (cache : RouteCache) : List Vehicle :=
  vehicles.map fun v => enrichVehicle v cache

-- ===========================================================================
-- src/gtfs/sync.ts
-- ===========================================================================

/-- `CacheMeta` from src/gtfs/sync.ts; `syncedAt` is epoch milliseconds
(the ISO round trip through JSON is the identity in this model). -/
structure CacheMeta where
  lastModified : Option String
  syncedAt : ℤ
  routeCount : Nat
  stopCount : Nat
deriving DecidableEq, Repr

/-- The `status` discriminant of `SyncResult`. -/
inductive SyncStatus
  | updated
  | upToDate
deriving DecidableEq, Repr

/-- `SyncResult` from src/types.ts. -/
structure SyncResult where
  city : String
  status : SyncStatus
  routeCount : Nat
  stopCount : Nat
  lastModified : Option String
  syncedAt : ℤ
deriving DecidableEq, Repr

/-- The environment `syncGtfs` interacts with: whether the city has GTFS
enabled, the freshness token returned by the metadata-only HEAD probe, and
the routes/stops that downloading and parsing the archive would yield
(`parseRoutesContent`/`parseStopsContent` applied to the archive entries;
the network, ZIP extraction and temp-file plumbing are the external
collaborators of the model). -/
structure SyncEnv where
  gtfsEnabled : Bool
  remoteLastModified : Option String
  downloadedRoutes : List (String × Route)
  downloadedStops : List Stop
deriving DecidableEq, Repr

/-- What a `syncGtfs` call produced: the returned `SyncResult`, the cache
metadata stored on disk after the call, and how many times the archive body
was downloaded during the call. -/
structure SyncOutcome where
  result : SyncResult
  newMeta : CacheMeta
  downloads : Nat
deriving DecidableEq, Repr

/-- Structured model of `GtfsSyncError`. -/
inductive SyncError
  | gtfsNotAvailable (city : String)
deriving DecidableEq, Repr

/-- `syncGtfs` from src/gtfs/sync.ts. `cachedMeta` is the stored metadata
loaded by `loadCacheMeta` (`none` when the meta file is absent or
unreadable); `now` is the clock read for the new `syncedAt`. The
up-to-date short circuit requires: not forced, a stored token equal to the
probed token, and a non-null probed token; only the other branch downloads
the archive body. -/
def syncGtfs (env : SyncEnv) (city : String) (cachedMeta : Option CacheMeta)
    (force : Bool) (now : ℤ) : Except SyncError SyncOutcome :=
  if !env.gtfsEnabled then .error (.gtfsNotAvailable city)
  else
    let remoteLastModified := env.remoteLastModified
    match cachedMeta with
    | some meta =>
      if !force ∧ meta.lastModified = remoteLastModified ∧
          remoteLastModified ≠ none then
        .ok {
          result := {
            city, status := .upToDate, routeCount := meta.routeCount,
            stopCount := meta.stopCount, lastModified := meta.lastModified,
            syncedAt := meta.syncedAt },
          newMeta := meta, downloads := 0 }
      else
        let routes := env.downloadedRoutes
        let stops := env.downloadedStops
        let meta2 : CacheMeta := {
          lastModified := remoteLastModified, syncedAt := now,
          routeCount := routes.length, stopCount := stops.length }
        .ok {
          result := {
            city, status := .updated, routeCount := routes.length,
            stopCount := stops.length, lastModified := remoteLastModified,
            syncedAt := now },
          newMeta := meta2, downloads := 1 }
    | none =>
      let routes := env.downloadedRoutes
      let stops := env.downloadedStops
      let meta2 : CacheMeta := {
        lastModified := remoteLastModified, syncedAt := now,
        routeCount := routes.length, stopCount := stops.length }
      .ok {
        result := {
          city, status := .updated, routeCount := routes.length,
          stopCount := stops.length, lastModified := remoteLastModified,
          syncedAt := now },
        newMeta := meta2, downloads := 1 }

-- ===========================================================================
-- src/index.ts (public read paths) and src/gtfs/sync.ts loaders
-- ===========================================================================

/-- The per-city disk cache: `meta.json`, `routes.json`, `stops.json`.
`none` models a missing or unreadable file; file contents are the parsed
values (the JSON round trip is the identity in this model). A city for
which no sync ever succeeded has all three files absent. -/
structure CityDiskCache where
  metaFile : Option CacheMeta
  routesFile : Option (List (String × Route))
  stopsFile : Option (List Stop)
deriving DecidableEq, Repr

/-- `loadCachedStops` from src/gtfs/sync.ts: `null` when the file is
missing or unreadable. -/
def loadCachedStops (disk : CityDiskCache) : Option (List Stop) :=
  disk.stopsFile

/-- `loadCachedRoutes` from src/gtfs/sync.ts. -/
def loadCachedRoutes (disk : CityDiskCache) : Option (List (String × Route)) :=
  disk.routesFile

/-- Structured model of the errors the public read paths throw. -/
inductive TransportReadError
  | invalidCity (city : String)
  | syncRequired (city : String)
deriving DecidableEq, Repr

/-- `LtTransport.getStops` from src/index.ts: unknown city throws
`InvalidCityError`; a `null` stops load throws `SyncRequiredError`
(`!stops` in JS is true only for `null` here — an empty array is truthy
and is returned as-is). -/
def getStops (cityKnown : Bool) (city : String) (disk : CityDiskCache) :
    Except TransportReadError (List Stop) :=
  if !cityKnown then .error (.invalidCity city)
  else
    match loadCachedStops disk with
    | none => .error (.syncRequired city)
    | some stops => .ok stops

/-- `LtTransport.getRouteCache` from src/index.ts: the in-memory cache, else
`buildRouteCache` over the routes loaded from disk, else `null`. -/
def getRouteCache (memCache : Option RouteCache) (disk : CityDiskCache) :
    Option RouteCache :=
  match memCache with
  | some cached => some cached
  | none =>
    match loadCachedRoutes disk with
    | some routes => some (buildRouteCache routes)
    | none => none

/-- The deduplication loop of `LtTransport.getRoutes`: keep the first route
for each `id`. -/
def dedupRoutesAux : List Route → List String → List Route
  | [], _ => []
  | r :: rest, seen =>
    if seen.contains r.id then dedupRoutesAux rest seen
    else r :: dedupRoutesAux rest (r.id :: seen)

/-- `LtTransport.getRoutes` from src/index.ts. -/
def getRoutes (cityKnown : Bool) (city : String) (memCache : Option RouteCache)
    (disk : CityDiskCache) : Except TransportReadError (List Route) :=
  if !cityKnown then .error (.invalidCity city)
  else
    match getRouteCache memCache disk with
    | none => .error (.syncRequired city)
    | some routeCache =>
      .ok (dedupRoutesAux (routeCache.routes.map Prod.snd) [])

-- ===========================================================================
-- Shared lemmas
-- ===========================================================================

/-- The bearing wrap computes the floored modulo by 360. -/
theorem normalizeBearing_some_eq (q : ℚ) :
    normalizeBearing (some q) = q - 360 * ⌊q / 360⌋ := by
  have hred : normalizeBearing (some q) = jsMod (jsMod q 360 + 360) 360 := rfl
  rw [hred]
  unfold jsMod ratTrunc
  rcases le_or_lt 0 (q / 360) with hx | hx
  · rw [if_pos hx]
    set n := ⌊q / 360⌋ with hn
    have hn1 : (n : ℚ) ≤ q / 360 := Int.floor_le _
    have hn2 : q / 360 < (n : ℚ) + 1 := Int.lt_floor_add_one _
    have hr0 : 0 ≤ q - 360 * (n : ℚ) := by
      have : 360 * (n : ℚ) ≤ 360 * (q / 360) := by linarith
      have hq : 360 * (q / 360) = q := by ring
      linarith
    have hr1 : q - 360 * (n : ℚ) < 360 := by
      have : 360 * (q / 360) < 360 * ((n : ℚ) + 1) := by linarith
      have hq : 360 * (q / 360) = q := by ring
      linarith
    have harg : 0 ≤ (q - 360 * (n : ℚ) + 360) / 360 := by
      apply div_nonneg _ (by norm_num)
      linarith
    rw [if_pos harg]
    have hfl : ⌊(q - 360 * (n : ℚ) + 360) / 360⌋ = 1 := by
      rw [Int.floor_eq_iff]
      constructor
      · rw [le_div_iff₀ (by norm_num : (0:ℚ) < 360)]
        push_cast
        linarith
      · rw [div_lt_iff₀ (by norm_num : (0:ℚ) < 360)]
        push_cast
        linarith
    rw [hfl]
    push_cast
    ring
  · rw [if_neg (not_le.mpr hx)]
    set t := -⌊-(q / 360)⌋ with ht
    have hb1 : (⌊-(q / 360)⌋ : ℚ) ≤ -(q / 360) := Int.floor_le _
    have hb2 : -(q / 360) < (⌊-(q / 360)⌋ : ℚ) + 1 := Int.lt_floor_add_one _
    have hub : q / 360 ≤ (t : ℚ) := by
      have : (t : ℚ) = -(⌊-(q / 360)⌋ : ℚ) := by push_cast [ht]; ring
      linarith
    have hlb : (t : ℚ) - 1 < q / 360 := by
      have : (t : ℚ) = -(⌊-(q / 360)⌋ : ℚ) := by push_cast [ht]; ring
      linarith
    have hq360 : 360 * (q / 360) = q := by ring
    by_cases heq : q / 360 = (t : ℚ)
    · have hqt : q = 360 * (t : ℚ) := by
        rw [← hq360, heq]
      have hm1 : q - 360 * (t : ℚ) = 0 := by linarith
      rw [hm1]
      have harg : 0 ≤ ((0 : ℚ) + 360) / 360 := by norm_num
      rw [if_pos harg]
      have hfl : ⌊((0 : ℚ) + 360) / 360⌋ = 1 := by norm_num
      rw [hfl]
      have hflq : ⌊q / 360⌋ = t := by
        rw [heq]
        exact Int.floor_intCast t
      rw [hflq]
      push_cast
      linarith
    · have hlt : q / 360 < (t : ℚ) := lt_of_le_of_ne hub heq
      have hm0 : q - 360 * (t : ℚ) < 0 := by
        have : 360 * (q / 360) < 360 * (t : ℚ) := by linarith
        linarith
      have hm1 : -360 < q - 360 * (t : ℚ) := by
        have : 360 * ((t : ℚ) - 1) < 360 * (q / 360) := by linarith
        linarith
      have harg : 0 ≤ (q - 360 * (t : ℚ) + 360) / 360 := by
        apply div_nonneg _ (by norm_num)
        linarith
      rw [if_pos harg]
      have hfl : ⌊(q - 360 * (t : ℚ) + 360) / 360⌋ = 0 := by
        rw [Int.floor_eq_zero_iff]
        constructor
        · exact harg
        · rw [div_lt_iff₀ (by norm_num : (0:ℚ) < 360)]
          linarith
      rw [hfl]
      have hflq : ⌊q / 360⌋ = t - 1 := by
        rw [Int.floor_eq_iff]
        constructor
        · push_cast
          linarith
        · push_cast
          linarith
      rw [hflq]
      push_cast
      ring

/-- The wrapped bearing lies in `[0, 360)`. -/
theorem normalizeBearing_some_range (q : ℚ) :
    0 ≤ normalizeBearing (some q) ∧ normalizeBearing (some q) < 360 := by
  rw [normalizeBearing_some_eq]
  have h1 : (⌊q / 360⌋ : ℚ) ≤ q / 360 := Int.floor_le _
  have h2 : q / 360 < (⌊q / 360⌋ : ℚ) + 1 := Int.lt_floor_add_one _
  have hq : 360 * (q / 360) = q := by ring
  have h1' : 360 * (⌊q / 360⌋ : ℚ) ≤ 360 * (q / 360) :=
    mul_le_mul_of_nonneg_left h1 (by norm_num)
  have h2' : 360 * (q / 360) < 360 * ((⌊q / 360⌋ : ℚ) + 1) :=
    mul_lt_mul_of_pos_left h2 (by norm_num)
  constructor
  · linarith
  · linarith


/-- C9: normalizeBearing is total: on finite inputs it is the floored modulo
by 360, landing in [0,360); non-finite inputs give 0; it is idempotent on its
own output; normalizeBearing(-90) = 270 and normalizeBearing(725) = 5. -/
theorem normalizeBearing_spec :
    (∀ q : ℚ, normalizeBearing (some q) = q - 360 * ⌊q / 360⌋) ∧
    (∀ q : ℚ, 0 ≤ normalizeBearing (some q) ∧ normalizeBearing (some q) < 360) ∧
    normalizeBearing none = 0 ∧
    (∀ b : Option ℚ,
      normalizeBearing (some (normalizeBearing b)) = normalizeBearing b) ∧
    normalizeBearing (some (-90)) = 270 ∧
    normalizeBearing (some 725) = 5 := by
  refine ⟨normalizeBearing_some_eq, normalizeBearing_some_range, rfl, ?_, ?_, ?_⟩
  · intro b
    have key : ∀ r : ℚ, 0 ≤ r → r < 360 → normalizeBearing (some r) = r := by
      intro r h0 h1
      rw [normalizeBearing_some_eq]
      have hfl : ⌊r / 360⌋ = 0 := by
        rw [Int.floor_eq_zero_iff]
        constructor
        · exact div_nonneg h0 (by norm_num)
        · rw [div_lt_one (by norm_num : (0:ℚ) < 360)]
          exact h1
      rw [hfl]
      push_cast
      ring
    match b with
    | none =>
      have h0 : normalizeBearing none = 0 := rfl
      rw [h0]
      exact key 0 le_rfl (by norm_num)
    | some q =>
      exact key _ (normalizeBearing_some_range q).1 (normalizeBearing_some_range q).2
  · with_unfolding_all rfl
  · with_unfolding_all rfl

/-- C3: the service-day conversion anchors at the day-before midnight when
seconds >= 86400 and at the current day otherwise, adds the full seconds
with no modulo, and maps both 90000 and 3600 to 01:00 of the current day. -/
theorem secondsFromMidnightToDate_anchor :
    (∀ (s : ℚ) (now : ℤ), 86400 ≤ s →
      secondsFromMidnightToDate s now =
        ((localMidnight now - MS_PER_DAY : ℤ) : ℚ) + s * 1000) ∧
    (∀ (s : ℚ) (now : ℤ), s < 86400 →
      secondsFromMidnightToDate s now = ((localMidnight now : ℤ) : ℚ) + s * 1000) ∧
    (∀ now : ℤ, secondsFromMidnightToDate 90000 now =
      ((localMidnight now : ℤ) : ℚ) + 3600000) ∧
    (∀ now : ℤ, secondsFromMidnightToDate 3600 now =
      ((localMidnight now : ℤ) : ℚ) + 3600000) := by
  have hyes : ∀ (s : ℚ) (now : ℤ), 86400 ≤ s →
      secondsFromMidnightToDate s now =
        ((localMidnight now - MS_PER_DAY : ℤ) : ℚ) + s * 1000 := by
    intro s now h
    simp only [secondsFromMidnightToDate]
    rw [if_pos (by exact h)]
  have hno : ∀ (s : ℚ) (now : ℤ), s < 86400 →
      secondsFromMidnightToDate s now =
        ((localMidnight now : ℤ) : ℚ) + s * 1000 := by
    intro s now h
    simp only [secondsFromMidnightToDate]
    rw [if_neg (not_le.mpr h)]
  refine ⟨hyes, hno, ?_, ?_⟩
  · intro now
    rw [hyes 90000 now (by norm_num)]
    push_cast [MS_PER_DAY]
    ring
  · intro now
    rw [hno 3600 now (by norm_num)]
    ring

/-- Closed witness for the service-day theorem at concrete inputs. -/
theorem secondsFromMidnightToDate_anchor_witness :
    (86400 : ℚ) ≤ 90000 ∧ (3600 : ℚ) < 86400 ∧
    secondsFromMidnightToDate 90000 1700000000000 =
      ((localMidnight 1700000000000 - MS_PER_DAY : ℤ) : ℚ) + 90000 * 1000 ∧
    secondsFromMidnightToDate 3600 1700000000000 =
      ((localMidnight 1700000000000 : ℤ) : ℚ) + 3600 * 1000 :=
  ⟨by norm_num, by norm_num,
    secondsFromMidnightToDate_anchor.1 90000 1700000000000 (by norm_num),
    secondsFromMidnightToDate_anchor.2.1 3600 1700000000000 (by norm_num)⟩


/-- A split never returns the empty list. -/
theorem splitOnSubAux_ne_nil (sep : List Char) :
    ∀ (n : Nat) (acc rest : List Char), splitOnSubAux sep n acc rest ≠ [] := by
  intro n
  induction n with
  | zero => intro acc rest; simp [splitOnSubAux]
  | succ n ih =>
    intro acc rest
    match rest with
    | [] => simp [splitOnSubAux]
    | x :: xs =>
      simp only [splitOnSubAux]
      by_cases h : isPrefixList sep (x :: xs)
      · simp [h]
      · simp only [h, Bool.false_eq_true, if_false]
        exact ih (x :: acc) xs

/-- jsSplitOn never returns the empty list. -/
theorem jsSplitOn_ne_nil (s sep : String) : jsSplitOn s sep ≠ [] := by
  unfold jsSplitOn
  intro h
  exact splitOnSubAux_ne_nil sep.data _ [] s.data (List.map_eq_nil_iff.mp h)

/-- C6: enrichVehicle is a no-op on records that already carry a nonempty
destination, changes at most the destination field otherwise, and is the
identity when no route matches; the argument record itself is a value and
is never modified. -/
theorem enrichVehicle_frame :
    (∀ (v : Vehicle) (cache : RouteCache) (d : String),
      v.destination = some d → d ≠ "" → enrichVehicle v cache = v) ∧
    (∀ (v : Vehicle) (cache : RouteCache),
      enrichVehicle v cache =
        { v with destination := (enrichVehicle v cache).destination }) ∧
    (∀ (v : Vehicle) (cache : RouteCache),
      (matchRoute v.route cache).matched = false → enrichVehicle v cache = v) := by
  refine ⟨?_, ?_, ?_⟩
  · intro v cache d hd hne
    unfold enrichVehicle
    rw [if_pos]
    constructor
    · rw [hd]; simp
    · rw [hd]
      intro h
      exact hne (Option.some_injective _ h)
  · intro v cache
    by_cases h1 : v.destination ≠ none ∧ v.destination ≠ some ""
    · simp only [enrichVehicle, if_pos h1]
    · by_cases h2 : (matchRoute v.route cache).matched
      · simp only [enrichVehicle, if_neg h1, h2, Bool.not_true, Bool.false_eq_true,
          if_false]
      · simp only [enrichVehicle, if_neg h1, h2, Bool.not_false, if_true]
  · intro v cache hm
    by_cases h1 : v.destination ≠ none ∧ v.destination ≠ some ""
    · simp only [enrichVehicle, if_pos h1]
    · simp only [enrichVehicle, if_neg h1, hm, Bool.not_false, if_true]

/-- A sample vehicle used as concrete input by witnesses. -/
def sampleVehicle : Vehicle :=
  { id := "kaunas-1001-12", vehicleNumber := "1001", route := "12",
    type := .bus, latitude := 546872/10000, longitude := 252797/10000,
    bearing := 90, speed := 30, destination := some "Centras",
    delaySeconds := none, tripId := none, gtfsTripId := none,
    nextStopId := none, arrivalTimeSeconds := none, isStale := false,
    measuredAt := 0 }

/-- Closed witness for the enrichment frame theorem: a record with a
nonempty destination passes through unchanged. -/
theorem enrichVehicle_frame_witness :
    sampleVehicle.destination = some "Centras" ∧ "Centras" ≠ "" ∧
    enrichVehicle sampleVehicle { routes := [], normalizedRoutes := [] } =
      sampleVehicle :=
  ⟨rfl, by decide,
    enrichVehicle_frame.1 sampleVehicle
      { routes := [], normalizedRoutes := [] } "Centras" rfl (by decide)⟩


/-- Modelled from the spec (refinement reference for the destination
extraction): scan the ordered separator list; at the first variant contained
in the long name, split on it and take the last segment, trimmed; if no
variant occurs, the destination is the full long name unmodified. -/
def specDestinationOfLongName (longName : String) : String :=
  match SEPARATORS.find? (fun sep => jsIncludes longName sep) with
  | some sep => jsTrim ((jsSplitOn longName sep).getLastD "")
  | none => longName

/-- A route with an empty long name, on which the claimed extraction rule
and the code disagree. -/
def emptyLongNameRoute : Route :=
  { id := "r0", shortName := "5", longName := "", type := .bus,
    color := "FFFFFF", textColor := "000000" }

/-- C8 counterexample: for a matched route whose long name is empty, no
separator variant occurs in the long name, yet the extracted destination is
null rather than the (empty) full long name the claim prescribes. -/
theorem extractEnrichment_empty_longName_counterexample :
    (SEPARATORS.find? (fun sep => jsIncludes emptyLongNameRoute.longName sep)
      = none) ∧
    (extractEnrichment emptyLongNameRoute).matched = true ∧
    (extractEnrichment emptyLongNameRoute).destination ≠
      some emptyLongNameRoute.longName ∧
    (extractEnrichment emptyLongNameRoute).destination = none := by
  refine ⟨by with_unfolding_all rfl, by with_unfolding_all rfl, ?_,
    by with_unfolding_all rfl⟩
  intro h
  have h0 : (extractEnrichment emptyLongNameRoute).destination = none := by
    with_unfolding_all rfl
  rw [h0] at h
  exact Option.noConfusion h

/-- A route whose long name carries a spaced hyphen separator. -/
def sampleRouteAB : Route :=
  { id := "r1", shortName := "12", longName := "A - B", type := .bus,
    color := "FFFFFF", textColor := "000000" }

/-- A route whose long name contains no separator variant. -/
def sampleRouteNoSep : Route :=
  { id := "r2", shortName := "3G", longName := "Centras", type := .bus,
    color := "FFFFFF", textColor := "000000" }

/-- C8 (amended): for a nonempty long name the extracted destination follows
the claimed rule (first separator variant in the fixed order, last segment,
trimmed; full long name when no variant occurs); for an empty long name the
destination is null. Matched routes reach this extraction unchanged, and
long name A - B yields B while a separator-free long name is returned
whole. -/
theorem extractEnrichment_destination_amended :
    (∀ r : Route, (extractEnrichment r).destination =
      (if r.longName = "" then none
       else some (specDestinationOfLongName r.longName))) ∧
    (∀ (cache : RouteCache) (k : String) (r : Route),
      jsTrim k ≠ "" → cache.routes.lookup (jsTrim k) = some r →
      matchRoute k cache = extractEnrichment r) ∧
    (extractEnrichment sampleRouteAB).destination = some "B" ∧
    (extractEnrichment sampleRouteNoSep).destination =
      some sampleRouteNoSep.longName := by
  refine ⟨?_, ?_, by with_unfolding_all rfl, by with_unfolding_all rfl⟩
  · intro r
    by_cases hln : r.longName = ""
    · simp [extractEnrichment, hln]
    · rcases hfind : SEPARATORS.find? (fun sep => jsIncludes r.longName sep)
        with _ | sep
      · simp [extractEnrichment, specDestinationOfLongName, hln, hfind]
      · have hne : jsSplitOn r.longName sep ≠ [] := jsSplitOn_ne_nil _ _
        rcases hlast : (jsSplitOn r.longName sep).getLast? with _ | lastPart
        · exact absurd (List.getLast?_eq_none_iff.mp hlast) hne
        · have hgd : (jsSplitOn r.longName sep).getLastD "" = lastPart := by
            rw [List.getLastD_eq_getLast?, hlast]
            rfl
          simp [extractEnrichment, specDestinationOfLongName, hln, hfind,
            hlast, hgd]
  · intro cache k r htrim hlook
    simp only [matchRoute]
    have hk : ¬(k = "" ∨ jsTrim k = "") := by
      rintro (h1 | h2)
      · apply htrim
        rw [h1]
        rfl
      · exact htrim h2
    rw [if_neg hk]
    simp only [hlook]

/-- Closed witness for the amended extraction theorem: an exact lookup hit
reaches the extraction unchanged. -/
theorem extractEnrichment_destination_amended_witness :
    jsTrim "12" ≠ "" ∧
    ([("12", sampleRouteAB)] : List (String × Route)).lookup (jsTrim "12") =
      some sampleRouteAB ∧
    matchRoute "12"
      { routes := [("12", sampleRouteAB)], normalizedRoutes := [] } =
      extractEnrichment sampleRouteAB :=
  ⟨by decide, by decide,
    extractEnrichment_destination_amended.2.1
      { routes := [("12", sampleRouteAB)], normalizedRoutes := [] }
      "12" sampleRouteAB (by decide) (by decide)⟩

/-- C7: a public static-data read for a city whose cache files were never
written by a successful sync throws the not-synced error, for both getStops
and getRoutes; no empty collection is returned. -/
theorem getStops_getRoutes_not_synced_error :
    ∀ (city : String) (disk : CityDiskCache) (memCache : Option RouteCache),
      disk.stopsFile = none → disk.routesFile = none → memCache = none →
      getStops true city disk = .error (.syncRequired city) ∧
      getRoutes true city memCache disk = .error (.syncRequired city) := by
  intro city disk memCache hstops hroutes hmem
  constructor
  · simp only [getStops, loadCachedStops, hstops, Bool.not_true,
      Bool.false_eq_true, if_false]
  · simp only [getRoutes, getRouteCache, loadCachedRoutes, hroutes, hmem,
      Bool.not_true, Bool.false_eq_true, if_false]

/-- Closed witness for the not-synced read theorem on an empty disk cache. -/
theorem getStops_getRoutes_not_synced_error_witness :
    getStops true "panevezys"
        { metaFile := none, routesFile := none, stopsFile := none } =
      .error (.syncRequired "panevezys") ∧
    getRoutes true "panevezys" none
        { metaFile := none, routesFile := none, stopsFile := none } =
      .error (.syncRequired "panevezys") :=
  getStops_getRoutes_not_synced_error "panevezys"
    { metaFile := none, routesFile := none, stopsFile := none } none
    rfl rfl rfl

/-- Every successful sync leaves stored metadata whose token is the probed
remote token, and returns a result agreeing with that metadata. -/
theorem syncGtfs_ok_meta (env : SyncEnv) (city : String)
    (cached : Option CacheMeta) (force : Bool) (now : ℤ) (o : SyncOutcome)
    (hen : env.gtfsEnabled = true)
    (h : syncGtfs env city cached force now = .ok o) :
    o.newMeta.lastModified = env.remoteLastModified ∧
    o.result.routeCount = o.newMeta.routeCount ∧
    o.result.stopCount = o.newMeta.stopCount ∧
    o.result.lastModified = o.newMeta.lastModified ∧
    o.result.syncedAt = o.newMeta.syncedAt := by
  simp only [syncGtfs, hen, Bool.not_true, Bool.false_eq_true, if_false] at h
  rcases cached with _ | meta0
  · dsimp only at h
    injection h with h2
    subst h2
    exact ⟨rfl, rfl, rfl, rfl, rfl⟩
  · dsimp only at h
    by_cases hc : (!force : Bool) ∧ meta0.lastModified = env.remoteLastModified ∧
        env.remoteLastModified ≠ none
    · rw [if_pos hc] at h
      injection h with h2
      subst h2
      exact ⟨hc.2.1, rfl, rfl, rfl, rfl⟩
    · rw [if_neg hc] at h
      injection h with h2
      subst h2
      exact ⟨rfl, rfl, rfl, rfl, rfl⟩

/-- C2: with force unset, a stored token equal to the non-null probed token
short-circuits to an up-to-date result carrying the stored counts, token and
sync timestamp, with zero downloads; consequently a second sync right after
any successful sync against an unchanged non-null remote token is up-to-date
with zero additional downloads and the first call's counts. -/
theorem syncGtfs_upToDate_short_circuit :
    (∀ (env : SyncEnv) (city : String) (meta : CacheMeta) (now : ℤ),
      env.gtfsEnabled = true →
      meta.lastModified = env.remoteLastModified →
      env.remoteLastModified ≠ none →
      syncGtfs env city (some meta) false now = .ok {
        result := {
          city, status := .upToDate, routeCount := meta.routeCount,
          stopCount := meta.stopCount, lastModified := meta.lastModified,
          syncedAt := meta.syncedAt },
        newMeta := meta, downloads := 0 }) ∧
    (∀ (env : SyncEnv) (city : String) (cached0 : Option CacheMeta)
        (force0 : Bool) (now now2 : ℤ) (o : SyncOutcome),
      env.gtfsEnabled = true →
      env.remoteLastModified ≠ none →
      syncGtfs env city cached0 force0 now = .ok o →
      syncGtfs env city (some o.newMeta) false now2 = .ok {
        result := {
          city, status := .upToDate, routeCount := o.result.routeCount,
          stopCount := o.result.stopCount,
          lastModified := o.result.lastModified,
          syncedAt := o.newMeta.syncedAt },
        newMeta := o.newMeta, downloads := 0 }) := by
  have hshort : ∀ (env : SyncEnv) (city : String) (meta : CacheMeta) (now : ℤ),
      env.gtfsEnabled = true →
      meta.lastModified = env.remoteLastModified →
      env.remoteLastModified ≠ none →
      syncGtfs env city (some meta) false now = .ok {
        result := {
          city, status := .upToDate, routeCount := meta.routeCount,
          stopCount := meta.stopCount, lastModified := meta.lastModified,
          syncedAt := meta.syncedAt },
        newMeta := meta, downloads := 0 } := by
    intro env city meta now hen htok hnn
    simp only [syncGtfs, hen, Bool.not_true, Bool.false_eq_true, if_false]
    rw [if_pos ⟨by simp, htok, hnn⟩]
  refine ⟨hshort, ?_⟩
  intro env city cached0 force0 now now2 o hen hnn hfirst
  obtain ⟨hm1, hm2, hm3, hm4, hm5⟩ :=
    syncGtfs_ok_meta env city cached0 force0 now o hen hfirst
  rw [hm2, hm3, hm4]
  exact hshort env city o.newMeta now2 hen hm1 hnn


/-- A concrete sync environment used by witnesses. -/
def sampleSyncEnv : SyncEnv :=
  { gtfsEnabled := true, remoteLastModified := some "tok",
    downloadedRoutes := [("12", sampleRouteAB)], downloadedStops := [] }

/-- The outcome of a first, downloading sync against `sampleSyncEnv`. -/
def sampleFirstOutcome : SyncOutcome :=
  { result := {
      city := "vilnius", status := .updated, routeCount := 1, stopCount := 0,
      lastModified := some "tok", syncedAt := 50 },
    newMeta := {
      lastModified := some "tok", syncedAt := 50, routeCount := 1,
      stopCount := 0 },
    downloads := 1 }

/-- Closed witness for the sync short-circuit theorem: a matching stored
token short-circuits, and a repeat sync directly after a fresh download is
up-to-date with zero downloads. -/
theorem syncGtfs_upToDate_short_circuit_witness :
    (syncGtfs sampleSyncEnv "vilnius"
        (some { lastModified := some "tok", syncedAt := 5, routeCount := 10,
                stopCount := 20 }) false 99 = .ok {
      result := {
        city := "vilnius", status := .upToDate, routeCount := 10,
        stopCount := 20, lastModified := some "tok", syncedAt := 5 },
      newMeta := { lastModified := some "tok", syncedAt := 5,
                   routeCount := 10, stopCount := 20 },
      downloads := 0 }) ∧
    (syncGtfs sampleSyncEnv "vilnius" (some sampleFirstOutcome.newMeta)
        false 99 = .ok {
      result := {
        city := "vilnius", status := .upToDate,
        routeCount := sampleFirstOutcome.result.routeCount,
        stopCount := sampleFirstOutcome.result.stopCount,
        lastModified := sampleFirstOutcome.result.lastModified,
        syncedAt := sampleFirstOutcome.newMeta.syncedAt },
      newMeta := sampleFirstOutcome.newMeta, downloads := 0 }) :=
  ⟨syncGtfs_upToDate_short_circuit.1 sampleSyncEnv "vilnius"
      { lastModified := some "tok", syncedAt := 5, routeCount := 10,
        stopCount := 20 } 99 rfl rfl (by decide),
    syncGtfs_upToDate_short_circuit.2 sampleSyncEnv "vilnius" none false
      50 99 sampleFirstOutcome rfl (by decide) (by with_unfolding_all rfl)⟩


/-- The lite descriptor used by concrete examples: six columns, id first,
then route, raw latitude, raw longitude, speed, bearing. -/
def sampleLiteFormat : LiteFormatDescriptor :=
  { minColumns := 6, vehicleIdIndex := 0, routeIndex := 1,
    coordIndices := (2, 3), speedIndex := 4, bearingIndex := 5 }

/-- The record decoded from the valid sample lite line. -/
def sampleLiteVehicle : Vehicle :=
  { id := "panevezys-123", vehicleNumber := "123", route := "4",
    type := .bus, latitude := 546872/10000, longitude := 252797/10000,
    bearing := 90, speed := 30, destination := none, delaySeconds := none,
    tripId := none, gtfsTripId := none, nextStopId := none,
    arrivalTimeSeconds := none, isStale := false, measuredAt := 0 }

/-- C5: an offset-mapped line with fewer than minColumns fields is soft
skipped (the parser is total, nothing is thrown); mixing one decodable line
with one such malformed line yields exactly the one surviving record, in
input order, in either arrangement; the concrete two-line stream decodes to
exactly the valid record. -/
theorem parseGpsLiteStream_skips_short_lines :
    (∀ (cols : List String) (cityId : String) (fmt : LiteFormatDescriptor)
        (now : ℤ),
      cols.length < fmt.minColumns → parseLiteLine cols cityId fmt now = none) ∧
    (∀ (l1 l2 cityId : String) (fmt : LiteFormatDescriptor) (now : ℤ)
        (v : Vehicle),
      parseLiteLine (jsSplitChar ',' l1) cityId fmt now = some v →
      isValidLithuaniaCoord v.latitude v.longitude = true →
      (jsSplitChar ',' l2).length < fmt.minColumns →
      parseLiteLines [l1, l2] cityId fmt true now = [v] ∧
      parseLiteLines [l2, l1] cityId fmt true now = [v]) ∧
    parseGpsLiteStream "123,4,54687200,25279700,30,90
7,8" "panevezys"
      sampleLiteFormat true 0 = [sampleLiteVehicle] := by
  have hshort : ∀ (cols : List String) (cityId : String)
      (fmt : LiteFormatDescriptor) (now : ℤ),
      cols.length < fmt.minColumns → parseLiteLine cols cityId fmt now = none := by
    intro cols cityId fmt now h
    simp only [parseLiteLine, if_pos h]
  refine ⟨hshort, ?_, by with_unfolding_all rfl⟩
  intro l1 l2 cityId fmt now v hv hcoord hlen
  have h2 : parseLiteLine (jsSplitChar ',' l2) cityId fmt now = none :=
    hshort _ cityId fmt now hlen
  constructor
  · simp [parseLiteLines, hv, h2, hcoord]
  · simp [parseLiteLines, hv, h2, hcoord]

/-- Closed witness for the lite skip theorem: the malformed two-field line
is skipped and the concrete mixed pair decodes to the single record in both
orders. -/
theorem parseGpsLiteStream_skips_short_lines_witness :
    parseLiteLine ["7", "8"] "panevezys" sampleLiteFormat 0 = none ∧
    (parseLiteLines ["123,4,54687200,25279700,30,90", "7,8"] "panevezys"
        sampleLiteFormat true 0 = [sampleLiteVehicle] ∧
      parseLiteLines ["7,8", "123,4,54687200,25279700,30,90"] "panevezys"
        sampleLiteFormat true 0 = [sampleLiteVehicle]) :=
  ⟨parseGpsLiteStream_skips_short_lines.1 ["7", "8"] "panevezys"
      sampleLiteFormat 0 (by decide),
    parseGpsLiteStream_skips_short_lines.2.1
      "123,4,54687200,25279700,30,90" "7,8" "panevezys" sampleLiteFormat 0
      sampleLiteVehicle (by with_unfolding_all rfl)
      (by with_unfolding_all rfl) (by decide)⟩

/-- C10: an input with fewer than two nonblank lines decodes to the empty
list with no mandatory-column validation; in particular a header-only input
missing mandatory columns returns the empty list rather than an error. -/
theorem parseGpsFullStream_short_input :
    (∀ (text city : String) (st : ℤ) (fs fc : Bool) (sv now : ℤ),
      ((jsSplitChar '
' text).filter (fun l => jsTrim l != "")).length < 2 →
      parseGpsFullStream text city st fs fc sv now = .ok []) ∧
    parseGpsFullStream "Transportas,Marsrutas" "kaunas" 300000 false true 0 0 =
      .ok [] ∧
    parseGpsFullStream "" "kaunas" 300000 false true 0 0 = .ok [] := by
  refine ⟨?_, by with_unfolding_all rfl, by with_unfolding_all rfl⟩
  intro text city st fs fc sv now h
  simp only [parseGpsFullStream, parseGpsFullLines, if_pos h]

/-- Closed witness for the short-input theorem at a header-only text. -/
theorem parseGpsFullStream_short_input_witness :
    parseGpsFullStream "Transportas,Ilguma" "vilnius" 300000 false true 0 0 =
      .ok [] :=
  parseGpsFullStream_short_input.1 "Transportas,Ilguma" "vilnius" 300000
    false true 0 0 (by decide)

/-- C1: with at least one data line, a header missing any mandatory column
makes decoding fail with the configuration error naming the first missing
column, before any data row is parsed: the same error results whatever the
data rows are, and no vehicle list is returned. -/
theorem parseGpsFullStream_missing_mandatory_column :
    ∀ (text city : String) (st : ℤ) (fs fc : Bool) (sv now : ℤ)
      (hdr : String) (rest : List String) (col : String),
      (jsSplitChar '
' text).filter (fun l => jsTrim l != "") = hdr :: rest →
      rest ≠ [] →
      REQUIRED_FULL_COLUMNS.find?
        (fun c => !columnHas (jsSplitChar ',' (stripBom hdr)) c) = some col →
      parseGpsFullStream text city st fs fc sv now =
        .error (.requiredColumnMissing col city) ∧
      ∀ rest2 : List String, rest2 ≠ [] →
        parseGpsFullLines (hdr :: rest2) city st fs fc sv now =
          .error (.requiredColumnMissing col city) := by
  intro text city st fs fc sv now hdr rest col hsplit hrest hfind
  have hlines : ∀ rest2 : List String, rest2 ≠ [] →
      parseGpsFullLines (hdr :: rest2) city st fs fc sv now =
        .error (.requiredColumnMissing col city) := by
    intro rest2 hne
    have hlen : ¬((hdr :: rest2).length < 2) := by
      simp only [List.length_cons]
      have : rest2.length ≠ 0 := fun h0 => hne (List.length_eq_zero.mp h0)
      omega
    simp only [parseGpsFullLines, if_neg hlen]
    rw [hfind]
  constructor
  · simp only [parseGpsFullStream, hsplit]
    exact hlines rest hrest
  · exact hlines

/-- Closed witness for the mandatory-column theorem: a feed whose header
lacks the vehicle-number column fails with the configuration error naming
MasinosNumeris even though a data row is present. -/
theorem parseGpsFullStream_missing_mandatory_column_witness :
    parseGpsFullStream
      "Transportas,Marsrutas,Ilguma,Platuma
Autobusai,3G,25279700,54687200"
      "vilnius" 300000 false true 0 0 =
      .error (.requiredColumnMissing "MasinosNumeris" "vilnius") :=
  (parseGpsFullStream_missing_mandatory_column
    "Transportas,Marsrutas,Ilguma,Platuma
Autobusai,3G,25279700,54687200"
    "vilnius" 300000 false true 0 0
    "Transportas,Marsrutas,Ilguma,Platuma"
    ["Autobusai,3G,25279700,54687200"] "MasinosNumeris"
    (by with_unfolding_all rfl) (by decide)
    (by with_unfolding_all rfl)).1


/-- A validated row records exactly the values produced by the speed and
bearing field validators. -/
theorem validateGpsFullRow_speed_bearing (get : String → Option String)
    (row : GpsFullRow) (h : validateGpsFullRow get = some row) :
    zodCoerceNonnegDefault0 (get "Greitis") = some row.Greitis ∧
    zodCoerceBearingDefault0 (get "Azimutas") = some row.Azimutas := by
  unfold validateGpsFullRow at h
  obtain ⟨a1, h1, h⟩ := Option.bind_eq_some.mp h
  obtain ⟨a2, h2, h⟩ := Option.bind_eq_some.mp h
  obtain ⟨a3, h3, h⟩ := Option.bind_eq_some.mp h
  obtain ⟨a4, h4, h⟩ := Option.bind_eq_some.mp h
  obtain ⟨a5, h5, h⟩ := Option.bind_eq_some.mp h
  obtain ⟨a6, h6, h⟩ := Option.bind_eq_some.mp h
  obtain ⟨a7, h7, h⟩ := Option.bind_eq_some.mp h
  obtain ⟨a8, h8, h⟩ := Option.bind_eq_some.mp h
  obtain ⟨a9, h9, h⟩ := Option.bind_eq_some.mp h
  obtain ⟨a10, h10, h⟩ := Option.bind_eq_some.mp h
  obtain ⟨a11, h11, h⟩ := Option.bind_eq_some.mp h
  obtain ⟨a12, h12, h⟩ := Option.bind_eq_some.mp h
  obtain ⟨a13, h13, h⟩ := Option.bind_eq_some.mp h
  obtain ⟨a14, h14, h⟩ := Option.bind_eq_some.mp h
  obtain ⟨a15, h15, h⟩ := Option.bind_eq_some.mp h
  obtain ⟨a16, h16, h⟩ := Option.bind_eq_some.mp h
  obtain ⟨a17, h17, h⟩ := Option.bind_eq_some.mp h
  obtain ⟨a18, h18, h⟩ := Option.bind_eq_some.mp h
  obtain ⟨a19, h19, h⟩ := Option.bind_eq_some.mp h
  obtain ⟨a20, h20, h⟩ := Option.bind_eq_some.mp h
  injection h with hrow
  subst hrow
  exact ⟨h6, h7⟩

/-- A derived record carries the normalized speed and bearing of its
validated row. -/
theorem parseVehicleLine_speed_bearing (cols headers : List String)
    (city : String) (st sv now : ℤ) (v : Vehicle)
    (h : parseVehicleLine cols headers city st sv now = some v) :
    ∃ row, validateGpsFullRow (rowField headers cols) = some row ∧
      v.speed = normalizeSpeed (some row.Greitis) ∧
      v.bearing = normalizeBearing (some row.Azimutas) := by
  rcases hval : validateGpsFullRow (rowField headers cols) with _ | row
  · simp only [parseVehicleLine, hval] at h
    exact Option.noConfusion h
  · simp only [parseVehicleLine, hval] at h
    by_cases hmn : row.MasinosNumeris = ""
    · rw [if_pos hmn] at h
      exact Option.noConfusion h
    · rw [if_neg hmn] at h
      obtain rfl := (Option.some.injEq _ _).mp h
      exact ⟨row, rfl, rfl, rfl⟩

/-- The record decoded from a row whose header has no speed or bearing
column at all. -/
def defaultedSpeedVehicle : Vehicle :=
  { id := "vilnius-1234-3G", vehicleNumber := "1234", route := "3G",
    type := .bus, latitude := 546872/10000, longitude := 252797/10000,
    bearing := 0, speed := 0, destination := none, delaySeconds := none,
    tripId := none, gtfsTripId := none, nextStopId := none,
    arrivalTimeSeconds := none, isStale := false, measuredAt := 0 }

/-- The record decoded from the same row with speed field 7. -/
def speed7Vehicle : Vehicle :=
  { id := "vilnius-1234-3G", vehicleNumber := "1234", route := "3G",
    type := .bus, latitude := 546872/10000, longitude := 252797/10000,
    bearing := 0, speed := 7, destination := none, delaySeconds := none,
    tripId := none, gtfsTripId := none, nextStopId := none,
    arrivalTimeSeconds := none, isStale := false, measuredAt := 0 }

/-- C4 counterexample: in a feed with every mandatory column and a speed
column, the row whose speed text abc fails numeric coercion is skipped
and no canonical record is derived for it — the whole decode is empty —
while the identical row with a numeric speed decodes. -/
theorem gpsFull_invalid_speed_counterexample :
    parseGpsFullStream
      "Transportas,Marsrutas,MasinosNumeris,Ilguma,Platuma,Greitis
Autobusai,3G,1234,25279700,54687200,abc"
      "vilnius" 300000 false true 0 0 = .ok [] ∧
    parseGpsFullStream
      "Transportas,Marsrutas,MasinosNumeris,Ilguma,Platuma,Greitis
Autobusai,3G,1234,25279700,54687200,7"
      "vilnius" 300000 false true 0 0 = .ok [speed7Vehicle] :=
  ⟨by with_unfolding_all rfl, by with_unfolding_all rfl⟩

/-- C4 (amended): a row whose speed or bearing field is ABSENT (no such
header column) or EMPTY is not skipped for that reason — the derived record
carries speed 0 and bearing 0 — as witnessed in general and on concrete
feeds without the columns and with empty fields; a row whose speed text
fails numeric coercion is rejected by row validation instead. -/
theorem gpsFull_speed_bearing_default_amended :
    (∀ (headers cols : List String) (city : String) (st sv now : ℤ)
        (v : Vehicle),
      (rowField headers cols "Greitis" = none ∨
        rowField headers cols "Greitis" = some "") →
      parseVehicleLine cols headers city st sv now = some v → v.speed = 0) ∧
    (∀ (headers cols : List String) (city : String) (st sv now : ℤ)
        (v : Vehicle),
      (rowField headers cols "Azimutas" = none ∨
        rowField headers cols "Azimutas" = some "") →
      parseVehicleLine cols headers city st sv now = some v →
      v.bearing = 0) ∧
    parseGpsFullStream
      "Transportas,Marsrutas,MasinosNumeris,Ilguma,Platuma
Autobusai,3G,1234,25279700,54687200"
      "vilnius" 300000 false true 0 0 = .ok [defaultedSpeedVehicle] ∧
    parseGpsFullStream
      "Transportas,Marsrutas,MasinosNumeris,Ilguma,Platuma,Greitis,Azimutas
Autobusai,3G,1234,25279700,54687200,,"
      "vilnius" 300000 false true 0 0 = .ok [defaultedSpeedVehicle] ∧
    validateGpsFullRow (rowField
      (jsSplitChar ',' "Transportas,Marsrutas,MasinosNumeris,Ilguma,Platuma,Greitis")
      (jsSplitChar ',' "Autobusai,3G,1234,25279700,54687200,abc")) = none := by
  refine ⟨?_, ?_, by with_unfolding_all rfl, by with_unfolding_all rfl,
    by with_unfolding_all rfl⟩
  · intro headers cols city st sv now v hG hsucc
    obtain ⟨row, hval, hs, _⟩ :=
      parseVehicleLine_speed_bearing cols headers city st sv now v hsucc
    obtain ⟨hg, _⟩ := validateGpsFullRow_speed_bearing _ _ hval
    have hg0 : row.Greitis = 0 := by
      rcases hG with h0 | h0
      · rw [h0] at hg
        have h00 : some (0 : ℚ) = some row.Greitis := hg
        exact ((Option.some.injEq _ _).mp h00).symm
      · rw [h0] at hg
        have he : zodCoerceNonnegDefault0 (some "") = some (0 : ℚ) := by
          with_unfolding_all rfl
        rw [he] at hg
        exact ((Option.some.injEq _ _).mp hg).symm
    rw [hs, hg0]
    simp [normalizeSpeed]
  · intro headers cols city st sv now v hA hsucc
    obtain ⟨row, hval, _, hb⟩ :=
      parseVehicleLine_speed_bearing cols headers city st sv now v hsucc
    obtain ⟨_, ha⟩ := validateGpsFullRow_speed_bearing _ _ hval
    have ha0 : row.Azimutas = 0 := by
      rcases hA with h0 | h0
      · rw [h0] at ha
        have h00 : some (0 : ℚ) = some row.Azimutas := ha
        exact ((Option.some.injEq _ _).mp h00).symm
      · rw [h0] at ha
        have he : zodCoerceBearingDefault0 (some "") = some (0 : ℚ) := by
          with_unfolding_all rfl
        rw [he] at ha
        exact ((Option.some.injEq _ _).mp ha).symm
    rw [hb, ha0, normalizeBearing_some_eq]
    norm_num

/-- Closed witness for the amended defaulting theorem: decoding the row of
the empty-speed feed yields a record and its speed and bearing are 0. -/
theorem gpsFull_speed_bearing_default_amended_witness :
    (rowField
      (jsSplitChar ',' "Transportas,Marsrutas,MasinosNumeris,Ilguma,Platuma,Greitis,Azimutas")
      (jsSplitChar ',' "Autobusai,3G,1234,25279700,54687200,,")
      "Greitis" = some "") ∧
    (parseVehicleLine
      (jsSplitChar ',' "Autobusai,3G,1234,25279700,54687200,,")
      (jsSplitChar ',' "Transportas,Marsrutas,MasinosNumeris,Ilguma,Platuma,Greitis,Azimutas")
      "vilnius" 300000 0 0 = some defaultedSpeedVehicle) ∧
    defaultedSpeedVehicle.speed = 0 ∧ defaultedSpeedVehicle.bearing = 0 :=
  ⟨by with_unfolding_all rfl, by with_unfolding_all rfl,
    gpsFull_speed_bearing_default_amended.1
      (jsSplitChar ',' "Transportas,Marsrutas,MasinosNumeris,Ilguma,Platuma,Greitis,Azimutas")
      (jsSplitChar ',' "Autobusai,3G,1234,25279700,54687200,,")
      "vilnius" 300000 0 0 defaultedSpeedVehicle
      (Or.inr (by with_unfolding_all rfl)) (by with_unfolding_all rfl),
    gpsFull_speed_bearing_default_amended.2.1
      (jsSplitChar ',' "Transportas,Marsrutas,MasinosNumeris,Ilguma,Platuma,Greitis,Azimutas")
      (jsSplitChar ',' "Autobusai,3G,1234,25279700,54687200,,")
      "vilnius" 300000 0 0 defaultedSpeedVehicle
      (Or.inr (by with_unfolding_all rfl)) (by with_unfolding_all rfl)⟩
